import Mathlib

/-!
Verification of the in-memory Todo store of this repository
(src/lib/todo.js and its typed variant, plus the HTTP DELETE handler in
src/pages/api/todos/[id].ts).

The store is a module-level array of Todo records; the three operations
are modelled as pure functions over the store state (the array), with the
promise executor's resolve call modelled by a PromiseResult value where a
claim is about failure semantics. The HTTP handler's parseInt call is
modelled faithfully to the JavaScript parseInt(s, 10) semantics: leading
whitespace skipped, one optional sign, then the longest leading run of
decimal digits; NaN (here: none) exactly when that run is empty.
-/

/-- The Todo record: id, text, completion flag (src/lib/todo.js). -/
structure Todo where
  id : Int
  text : String
  completed : Bool
deriving DecidableEq, Repr

/-- The seed state of the module-level array todosData. -/
def todosData : List Todo :=
  [{ id := 1, text := "Learn Kung Fu", completed := false },
   { id := 2, text := "Watch Westminster", completed := true },
   { id := 3, text := "Study Vedanta", completed := false }]

/-- getTodos resolves the current array unchanged. -/
def getTodos (s : List Todo) : List Todo := s

/-- deleteTodo id: the array is replaced by its filter keeping records whose
id differs, and the promise resolves true. Returns (new state, resolved value). -/
def deleteTodo (id : Int) (s : List Todo) : List Todo × Bool :=
  (s.filter (fun todo => todo.id != id), true)

/-- addTodo text: a record with id = length + 1, the given text and
completed = false is appended; the promise resolves that record.
Returns (new state, resolved record). -/
def addTodo (text : String) (s : List Todo) : List Todo × Todo :=
  let newTodo : Todo := { id := (s.length : Int) + 1, text := text, completed := false }
  (s ++ [newTodo], newTodo)

/-- Outcome of a JavaScript promise: the executors in todo.js only ever call
resolve, never reject. -/
inductive PromiseResult (α : Type) where
  | resolved (value : α)
  | rejected (error : String)
deriving DecidableEq, Repr

/-- getTodos as the promise it returns. -/
def getTodosP (s : List Todo) : PromiseResult (List Todo) :=
  PromiseResult.resolved (getTodos s)

/-- deleteTodo as (new state, the promise it returns). -/
def deleteTodoP (id : Int) (s : List Todo) : List Todo × PromiseResult Bool :=
  ((deleteTodo id s).1, PromiseResult.resolved (deleteTodo id s).2)

/-- addTodo as (new state, the promise it returns). -/
def addTodoP (text : String) (s : List Todo) : List Todo × PromiseResult Todo :=
  ((addTodo text s).1, PromiseResult.resolved (addTodo text s).2)

/-- JavaScript parseInt(s, 10): skip leading whitespace, one optional sign,
then the longest leading run of decimal digits; none (NaN) when that run is
empty. -/
def parseInt10 (s : String) : Option Int :=
  let cs := s.data.dropWhile Char.isWhitespace
  let signRest : Bool × List Char :=
    match cs with
    | '-' :: rest => (true, rest)
    | '+' :: rest => (false, rest)
    | _ => (false, cs)
  let digits := signRest.2.takeWhile Char.isDigit
  if digits.isEmpty then
    none
  else
    let magnitude : Nat := digits.foldl (fun acc c => acc * 10 + (c.toNat - 48)) 0
    some (if signRest.1 then -(magnitude : Int) else (magnitude : Int))

/-- An HTTP response as the DELETE handler builds it: new Response(null, init). -/
structure HttpResponse where
  status : Nat
  statusText : Option String
  body : Option String
deriving DecidableEq, Repr

/-- The DELETE handler of src/pages/api/todos/[id].ts: parseInt(params.id or
the empty string, 10); 400 "Invalid ID" when NaN, otherwise deleteTodo and
200 with an empty body. Returns (new store state, response). -/
def DELETE (paramsId : Option String) (s : List Todo) : List Todo × HttpResponse :=
  match parseInt10 (paramsId.getD "") with
  | none => (s, { status := 400, statusText := some "Invalid ID", body := none })
  | some id =>
      ((deleteTodo id s).1, { status := 200, statusText := none, body := none })

/-- A store operation, as exported by todo.js. -/
inductive Op where
  | list
  | add (text : String)
  | del (id : Int)
deriving DecidableEq, Repr

/-- Effect of one operation on the store state. -/
def applyOp (s : List Todo) : Op → List Todo
  | Op.list => getTodos s
  | Op.add text => (addTodo text s).1
  | Op.del id => (deleteTodo id s).1

/-- The store state after a sequence of operations. -/
def runOps (s : List Todo) (ops : List Op) : List Todo :=
  ops.foldl applyOp s

/-- Filtering twice with the same predicate is the same as filtering once. -/
theorem filter_idempotent {α : Type} (p : α → Bool) (l : List α) :
    (l.filter p).filter p = l.filter p := by
  induction l with
  | nil => rfl
  | cons a l ih =>
    cases h : p a with
    | false => simp [List.filter_cons, h, ih]
    | true => simp [List.filter_cons, h, ih]

/-- Ids stay positive under any operation sequence, from any state whose ids
are all positive. -/
theorem runOps_ids_positive (ops : List Op) :
    ∀ s : List Todo, (∀ t ∈ s, 0 < t.id) → ∀ t ∈ runOps s ops, 0 < t.id := by
  induction ops with
  | nil =>
    intro s hs
    simpa [runOps] using hs
  | cons op ops ih =>
    intro s hs
    have h1 : runOps s (op :: ops) = runOps (applyOp s op) ops := rfl
    rw [h1]
    refine ih (applyOp s op) ?_
    intro t ht
    cases op with
    | list => exact hs t ht
    | add text =>
      simp only [applyOp, addTodo] at ht
      rcases List.mem_append.1 ht with h | h
      · exact hs t h
      · rcases List.mem_singleton.1 h with rfl
        show 0 < (s.length : Int) + 1
        omega
    | del id =>
      simp only [applyOp, deleteTodo] at ht
      exact hs t (List.mem_of_mem_filter ht)

/-- Texts stay non-empty under any operation sequence whose add operations
all carry non-empty text, from any state whose texts are all non-empty. -/
theorem runOps_texts_nonempty (ops : List Op) :
    ∀ s : List Todo, (∀ text, Op.add text ∈ ops → text ≠ "") →
      (∀ t ∈ s, t.text ≠ "") → ∀ t ∈ runOps s ops, t.text ≠ "" := by
  induction ops with
  | nil =>
    intro s _ hs
    simpa [runOps] using hs
  | cons op ops ih =>
    intro s hops hs
    have h1 : runOps s (op :: ops) = runOps (applyOp s op) ops := rfl
    rw [h1]
    refine ih (applyOp s op) (fun text ht => hops text (List.mem_cons_of_mem _ ht)) ?_
    intro t ht
    cases op with
    | list => exact hs t ht
    | add text =>
      simp only [applyOp, addTodo] at ht
      rcases List.mem_append.1 ht with h | h
      · exact hs t h
      · rcases List.mem_singleton.1 h with rfl
        exact hops text (List.mem_cons_self _ _)
    | del id =>
      simp only [applyOp, deleteTodo] at ht
      exact hs t (List.mem_of_mem_filter ht)

/-- C1: id collisions are reachable from the three-record seed state: the
sequence delete(1) then add produces a store holding two Todo records with
the same id (the states ids are 2, 3, 3). -/
theorem id_collision_reachable :
    ∃ i j : Fin (runOps todosData [Op.del 1, Op.add "Buy milk"]).length,
      i ≠ j ∧
        ((runOps todosData [Op.del 1, Op.add "Buy milk"]).get i).id =
          ((runOps todosData [Op.del 1, Op.add "Buy milk"]).get j).id := by
  decide

/-- C2: for every store state and text, addTodo creates a record with
completed = false, id = current length + 1 and the given text, appends
exactly that record at the end, and returns it; no validation of the text is
performed, so the empty string is accepted and stored like any other. -/
theorem addTodo_spec (s : List Todo) (text : String) :
    (addTodo text s).2.completed = false ∧
    (addTodo text s).2.id = (s.length : Int) + 1 ∧
    (addTodo text s).2.text = text ∧
    (addTodo text s).1 = s ++ [(addTodo text s).2] ∧
    (addTodo "" s).1 =
      s ++ [{ id := (s.length : Int) + 1, text := "", completed := false }] :=
  ⟨rfl, rfl, rfl, rfl, rfl⟩

/-- C3: for every store state and id, deleteTodo filters out every record
whose id equals the argument (a record stays exactly when it was there and
its id differs) and resolves true, whether or not anything was removed. -/
theorem deleteTodo_spec (id : Int) (s : List Todo) :
    (deleteTodo id s).1 = s.filter (fun todo => todo.id != id) ∧
    (∀ todo : Todo, todo ∈ (deleteTodo id s).1 ↔ todo ∈ s ∧ todo.id ≠ id) ∧
    (deleteTodo id s).2 = true := by
  refine ⟨rfl, ?_, rfl⟩
  intro todo
  simp [deleteTodo, List.mem_filter]

/-- C5: getTodos returns the full current store unchanged (insertion order
preserved, no error path), and on the seed state it returns exactly the
three literal seed records in their original order. -/
theorem getTodos_spec (s : List Todo) :
    getTodos s = s ∧
    getTodos todosData =
      [{ id := 1, text := "Learn Kung Fu", completed := false },
       { id := 2, text := "Watch Westminster", completed := true },
       { id := 3, text := "Study Vedanta", completed := false }] :=
  ⟨rfl, rfl⟩

/-- C4: the DELETE handler returns 400 "Invalid ID" with an empty body and an
unchanged store whenever parseInt yields NaN on the id parameter (the absent
parameter included), and otherwise invokes deleteTodo on the parsed integer
and returns 200 with an empty body; in particular "abc" yields 400, and
deleting an id the store does not hold still yields 200. -/
theorem DELETE_spec (paramsId : Option String) (s : List Todo) :
    (parseInt10 (paramsId.getD "") = none →
        DELETE paramsId s =
          (s, { status := 400, statusText := some "Invalid ID", body := none })) ∧
    (∀ id : Int, parseInt10 (paramsId.getD "") = some id →
        DELETE paramsId s =
          ((deleteTodo id s).1,
            { status := 200, statusText := none, body := none })) ∧
    DELETE (some "abc") s =
      (s, { status := 400, statusText := some "Invalid ID", body := none }) ∧
    DELETE none s =
      (s, { status := 400, statusText := some "Invalid ID", body := none }) ∧
    DELETE (some "2") s =
      ((deleteTodo 2 s).1, { status := 200, statusText := none, body := none }) := by
  refine ⟨?_, ?_, rfl, rfl, rfl⟩
  · intro h
    simp [DELETE, h]
  · intro id h
    simp [DELETE, h]

/-- C6 counterexample: the state reached from the seed by delete(1) then an
add holds ids 2, 3, 3: the id values of a reachable state are not pairwise
distinct. -/
theorem reachable_ids_not_unique :
    ¬ List.Nodup ((runOps todosData [Op.del 1, Op.add "Buy milk"]).map Todo.id) := by
  decide

/-- C6 (amended): in every store state reachable from the seed via list, add
and delete, every record id is a positive integer; pairwise distinctness of
ids, however, does not hold in every reachable state. -/
theorem reachable_ids_positive (ops : List Op) (t : Todo)
    (ht : t ∈ runOps todosData ops) : 0 < t.id :=
  runOps_ids_positive ops todosData (by decide) t ht

/-- Witness for C6 (amended) at the empty operation sequence and the first
seed record. -/
theorem reachable_ids_positive_witness :
    0 < (Todo.mk 1 "Learn Kung Fu" false).id :=
  reachable_ids_positive [] (Todo.mk 1 "Learn Kung Fu" false) (by decide)

/-- C7 counterexample: add performs no validation, so the store reached from
the seed by add of the empty string holds a record whose text is empty. -/
theorem reachable_text_can_be_empty :
    ¬ (∀ t ∈ runOps todosData [Op.add ""], t.text ≠ "") := by
  decide

/-- C7 (amended): in every store state reachable from the seed via list, add
and delete where every add operation carries non-empty text, every record
text is non-empty; add itself accepts the empty string, so the unconditional
claim fails. -/
theorem reachable_texts_nonempty (ops : List Op)
    (hops : ∀ text, Op.add text ∈ ops → text ≠ "")
    (t : Todo) (ht : t ∈ runOps todosData ops) : t.text ≠ "" :=
  runOps_texts_nonempty ops todosData hops (by decide) t ht

/-- Witness for C7 (amended) at the one-add sequence and the record it
appends. -/
theorem reachable_texts_nonempty_witness :
    (Todo.mk 4 "Buy milk" false).text ≠ "" :=
  reachable_texts_nonempty [Op.add "Buy milk"]
    (by
      intro text ht
      simp only [List.mem_singleton, Op.add.injEq] at ht
      subst ht
      decide)
    (Todo.mk 4 "Buy milk" false) (by decide)

/-- C8: none of the three store operations can fail: on every state and
argument each promise resolves with a value (getTodos with the record list,
deleteTodo with a boolean, addTodo with the created record); no rejected
outcome exists. -/
theorem store_ops_always_resolve (s : List Todo) (id : Int) (text : String) :
    (∃ todos, getTodosP s = PromiseResult.resolved todos) ∧
    (∃ ok, (deleteTodoP id s).2 = PromiseResult.resolved ok) ∧
    (∃ todo, (addTodoP text s).2 = PromiseResult.resolved todo) :=
  ⟨⟨getTodos s, rfl⟩, ⟨true, rfl⟩, ⟨(addTodo text s).2, rfl⟩⟩

/-- C9: deleteTodo is idempotent on the store state: applying it twice with
the same id gives the same state and resolved value as applying it once, and
each application resolves true. -/
theorem deleteTodo_idempotent (id : Int) (s : List Todo) :
    deleteTodo id (deleteTodo id s).1 = deleteTodo id s ∧
    (deleteTodo id s).2 = true := by
  refine ⟨?_, rfl⟩
  simp only [deleteTodo]
  rw [filter_idempotent]

/-- C10: strings that are not integer literals but start with digits pass the
handler's NaN check: parseInt reads the leading digit run, so "2abc" and
"2.9" both parse to 2 and the handler invokes deleteTodo 2 and returns 200
instead of 400. -/
theorem DELETE_accepts_leading_digits (s : List Todo) :
    parseInt10 "2abc" = some 2 ∧
    parseInt10 "2.9" = some 2 ∧
    DELETE (some "2abc") s =
      ((deleteTodo 2 s).1, { status := 200, statusText := none, body := none }) ∧
    DELETE (some "2.9") s =
      ((deleteTodo 2 s).1, { status := 200, statusText := none, body := none }) := by
  exact ⟨by decide, by decide, rfl, rfl⟩
